import Mathlib

/-!
Shallow embedding of the BloomNet Kernel backend (src/backend/main.py).

The backend keeps three stores: a topology ledger (Neo4j graph of
MinIONode / MinIOCluster records and MEMBER_OF edges), a control-plane
alias registry (read through the external mc tool), and two monitoring
target collections (Prometheus file-SD JSON lists).  External effects
(health probes, the join/reset commands, the alias listing, ledger
connectivity) are modelled as explicit inputs; the endpoints
register_node, delete_node, update_target_file and create_cluster are
translated as pure functions over that data.
-/

set_option autoImplicit false

namespace BloomNet

/-- One scrape-target descriptor of a Prometheus file-SD list.
targets is the entry's targets array; aliasLabel is the value of
entry.labels.alias when present (none for a foreign entry lacking the
label, matching Python's dict.get returning None); rest abstracts any
further JSON keys so that verbatim preservation is expressible. -/
structure TargetEntry where
  targets : List String
  aliasLabel : Option String
  rest : List (String × String)
  deriving DecidableEq, Repr

/-- The persisted content of one target file as found on disk: missing
file, empty file, unparsable JSON, JSON that is not a list, or a list
of entries. -/
inductive StoreContent where
  | missing
  | empty
  | malformed
  | nonList
  | entries (xs : List TargetEntry)
  deriving DecidableEq, Repr

/-- The read step of update_target_file: a missing file gives data = [],
json.load on an empty or malformed file raises JSONDecodeError which is
caught and gives [], a non-list document is replaced by [] by the
isinstance check. -/
def readTargets : StoreContent → List TargetEntry
  | .entries xs => xs
  | _ => []

/-- update_target_file (main.py lines 26-51): read the store, drop every
entry whose labels.alias equals the given alias, append the new target
when one is given, and write the full list back. -/
def update_target_file (sc : StoreContent) (a : String) (new_target : Option TargetEntry) :
    StoreContent :=
  let data := (readTargets sc).filter (fun t => !(t.aliasLabel == some a))
  match new_target with
  | some t => .entries (data ++ [t])
  | none => .entries data

/-- A MinIONode record of the ledger. -/
structure NodeRec where
  ip : String
  name : String
  status : String
  last_seen : Nat
  deriving DecidableEq, Repr

/-- A MinIOCluster record of the ledger. -/
structure ClusterRec where
  name : String
  created_at : Nat
  deriving DecidableEq, Repr

/-- A MEMBER_OF edge of the ledger, from the node with the given ip to
the cluster with the given name. -/
structure MemberEdge where
  nodeIp : String
  clusterName : String
  deriving DecidableEq, Repr

/-- The topology ledger: the Neo4j graph. -/
structure Ledger where
  nodes : List NodeRec
  clusters : List ClusterRec
  members : List MemberEdge
  deriving DecidableEq, Repr

/-- MERGE (n:MinIONode with the given ip) SET name status last_seen:
when some record matches the ip the SET applies to every matched record,
otherwise a fresh record is created. -/
def upsertByIp (ns : List NodeRec) (ip nm st : String) (now : Nat) : List NodeRec :=
  if ns.any (fun n => n.ip == ip) then
    ns.map (fun n => if n.ip == ip then ⟨ip, nm, st, now⟩ else n)
  else
    ns ++ [⟨ip, nm, st, now⟩]

/-- The cluster-list effect of MERGE (c:MinIOCluster with the given
name) SET c.created_at = timestamp() (main.py lines 375-378): when some
record matches the name, the SET clause runs on every matched record;
otherwise a fresh record is created, and the SET clause runs on it. -/
def upsertClusterList (cs : List ClusterRec) (nm : String) (now : Nat) : List ClusterRec :=
  if cs.any (fun c => c.name == nm) then
    cs.map (fun c => if c.name == nm then ⟨c.name, now⟩ else c)
  else
    cs ++ [⟨nm, now⟩]

/-- The first ledger statement of create_cluster, lifted to the ledger. -/
def mergeClusterSetCreated (l : Ledger) (nm : String) (now : Nat) : Ledger :=
  { l with clusters := upsertClusterList l.clusters nm now }

/-- MATCH the cluster, UNWIND the found ips, MATCH the node with that ip
and MERGE the membership edge (main.py lines 381-386): edges are created
only for ips with a matching node, and never duplicated. -/
def linkMembers (l : Ledger) (nm : String) (ips : List String) : Ledger :=
  if l.clusters.any (fun c => c.name == nm) then
    { l with members := ips.foldl (fun ms ip =>
        if l.nodes.any (fun n => n.ip == ip) then
          if ms.any (fun e => e.nodeIp == ip && e.clusterName == nm) then ms
          else ms ++ [⟨ip, nm⟩]
        else ms) l.members }
  else l

/-- The whole mutable state the claims talk about: the ledger and the
two target files. -/
structure SysState where
  ledger : Ledger
  minioTargets : StoreContent
  nodeTargets : StoreContent
  deriving DecidableEq, Repr

/-- Python's "ip:port" address formatting used for target entries. -/
def addr (ip : String) (port : Nat) : String := ip ++ ":" ++ toString port

/-- status = "active" if (is_a_alive and is_b_alive) else "degraded"
(main.py line 198). -/
def computeStatus (a b : Bool) : String := if a && b then "active" else "degraded"

/-- The success response of register_node (health field). -/
structure RegResp where
  node : String
  instance_a : Bool
  instance_b : Bool
  deriving DecidableEq, Repr

/-- register_node (main.py lines 184-225).  The two health probes are
inputs is_a and is_b (check_minio_health never raises, main.py 74-83);
dbOk says whether the ledger session works.  A probe failure only
prints a warning; a ledger failure is re-raised as a 500 (the except
Exception clause also catches the 503 from get_db_session); on ledger
success both target files are updated and the endpoint returns 200. -/
def register_node (st : SysState) (nm ip : String) (node_port : Nat)
    (is_a is_b : Bool) (dbOk : Bool) (now : Nat) :
    Except Nat RegResp × SysState :=
  let status := computeStatus is_a is_b
  if dbOk then
    let l := { st.ledger with nodes := upsertByIp st.ledger.nodes ip nm status now }
    let minio_target : TargetEntry := ⟨[addr ip 9001, addr ip 9003], some nm, []⟩
    let node_target : TargetEntry := ⟨[addr ip node_port], some nm, []⟩
    let tm := update_target_file st.minioTargets nm (some minio_target)
    let tn := update_target_file st.nodeTargets nm (some node_target)
    (.ok ⟨nm, is_a, is_b⟩, ⟨l, tm, tn⟩)
  else
    (.error 500, st)

/-- delete_node (main.py lines 158-178).  A ledger connectivity failure
surfaces as 503 (the HTTPException from get_db_session is re-raised by
the except HTTPException clause).  The delete query counts the matched
nodes; a zero count raises 404 before anything is changed.  Only after
the ledger delete succeeds are both target files purged of the alias. -/
def delete_node (st : SysState) (nm : String) (dbOk : Bool) :
    Except Nat String × SysState :=
  if dbOk then
    if st.ledger.nodes.countP (fun n => n.name == nm) = 0 then
      (.error 404, st)
    else
      let deletedIps := (st.ledger.nodes.filter (fun n => n.name == nm)).map (fun n => n.ip)
      let l := { st.ledger with
        nodes := st.ledger.nodes.filter (fun n => !(n.name == nm)),
        members := st.ledger.members.filter (fun e => !(deletedIps.contains e.nodeIp)) }
      let tm := update_target_file st.minioTargets nm none
      let tn := update_target_file st.nodeTargets nm none
      (.ok "deleted", ⟨l, tm, tn⟩)
  else
    (.error 503, st)

/-- Python list characters of str.strip: drop leading and trailing
whitespace. -/
def stripChars (cs : List Char) : List Char :=
  ((cs.dropWhile Char.isWhitespace).reverse.dropWhile Char.isWhitespace).reverse

/-- Python str.split on a comma, keeping empty pieces. -/
def splitCommaAux (cur : List Char) : List Char → List (List Char)
  | [] => [cur.reverse]
  | c :: cs => if c = ',' then cur.reverse :: splitCommaAux [] cs else splitCommaAux (c :: cur) cs

/-- alias_list parsing of create_cluster (main.py line 323):
[a.strip() for a in aliases.split(d) if a.strip()] with d the comma. -/
def parseAliases (aliases : String) : List String :=
  (((splitCommaAux [] aliases.data).map (fun cs => String.mk (stripChars cs))).filter
    (fun s => !(s == "")))

/-- needle is an initial segment of the haystack. -/
def leadsWith : List Char → List Char → Bool
  | [], _ => true
  | _ :: _, [] => false
  | a :: as, b :: bs => a == b && leadsWith as bs

/-- Python's "needle in haystack" substring test. -/
def containsSub (needle : List Char) : List Char → Bool
  | [] => leadsWith needle []
  | c :: cs => leadsWith needle (c :: cs) || containsSub needle cs

/-- Python str.lower, character by character. -/
def pyLower (s : String) : String := String.mk (s.data.map Char.toLower)

/-- The benign class of join failures (main.py line 342): "already"
occurs in the lowercased stderr of the join command. -/
def alreadyClass (stderr : String) : Bool :=
  containsSub "already".data (pyLower stderr).data

/-- Python url.split on the scheme separator "://", keeping pieces. -/
def splitUrlAux (cur : List Char) : List Char → List (List Char)
  | [] => [cur.reverse]
  | ':' :: '/' :: '/' :: rest => cur.reverse :: splitUrlAux [] rest
  | c :: rest => splitUrlAux (c :: cur) rest

/-- The piece of a string before its first colon (str.split on a colon,
first element). -/
def upToColon : List Char → List Char
  | [] => []
  | c :: cs => if c = ':' then [] else c :: upToColon cs

/-- IP extraction of create_cluster (main.py line 361):
url.split on the scheme separator, last piece, then up to the colon. -/
def extractIp (url : String) : String :=
  String.mk (upToColon ((splitUrlAux [] url.data).getLastD []))

/-- One line of the stdout of the alias listing command: either a JSON
object giving an optional alias name and a url (the URL-or-url field,
empty when both are absent), or an unparsable line that is skipped. -/
inductive AliasLine where
  | parsed (a : Option String) (url : String)
  | bad
  deriving DecidableEq, Repr

/-- Python dict assignment on an association list: an existing key keeps
its position and gets the new value, a new key is appended. -/
def mapInsert (m : List (String × String)) (k v : String) : List (String × String) :=
  if m.any (fun p => p.1 == k) then m.map (fun p => if p.1 == k then (k, v) else p)
  else m ++ [(k, v)]

/-- alias_map construction of create_cluster (main.py lines 348-364):
for each parsed line whose alias is in alias_list and whose url is
non-empty, record alias -> extracted ip. -/
def buildAliasMap (alias_list : List String) (lines : List AliasLine) :
    List (String × String) :=
  lines.foldl (fun m line =>
    match line with
    | .parsed (some a) url =>
        if alias_list.contains a && !(url == "") then mapInsert m a (extractIp url) else m
    | _ => m) []

/-- The result of an external command: returncode, stdout, stderr. -/
structure CmdResult where
  returncode : Int
  stdout : String
  stderr : String
  deriving DecidableEq, Repr

/-- How the Neo4j block of create_cluster (main.py lines 369-389) can
end.  The block issues up to two session.run calls, each applied
atomically or not at all: get_db_session can raise before anything ran
(connFail, the 503 HTTPException), the cluster-MERGE query can fail
with nothing applied (mergeFail), the membership-linking query can fail
after the MERGE was already applied (linkFail), or everything succeeds
(ok). -/
inductive DbOutcome where
  | connFail
  | mergeFail
  | linkFail
  | ok
  deriving DecidableEq, Repr

/-- The environment of one create_cluster run: the outcome of the join
command, whether the alias listing command succeeded and its parsed
lines, and how the ledger block ends. -/
structure ClusterEnv where
  joinResult : CmdResult
  aliasListOk : Bool
  aliasLines : List AliasLine
  dbOutcome : DbOutcome
  deriving Repr

/-- The external calls create_cluster can issue, in order. -/
inductive ExtCall where
  | resetCmd (a : String)
  | joinCmd (as : List String)
  | aliasListCmd
  | ledgerWrite
  deriving DecidableEq, Repr

/-- The success response of create_cluster. -/
structure ClusterResp where
  cluster : String
  members : List String
  resolved_ips : List (String × String)
  deriving DecidableEq, Repr

/-- The observable outcome of one create_cluster run: the HTTP result,
the final ledger, and the trace of external calls issued. -/
structure CCOut where
  result : Except Nat ClusterResp
  ledger : Ledger
  calls : List ExtCall
  deriving Repr

/-- create_cluster (main.py lines 311-396).  Parse the alias list and
require at least two aliases (400 before any external call); issue one
reset per alias ignoring errors; issue the single join command and
abort with 500 unless it succeeded or failed with an "already" message;
list aliases to build the alias -> ip map (best effort); then MERGE the
cluster with created_at = now and MERGE membership edges for the found
ips — any exception of that ledger block, including the 503 raised on a
connectivity failure, is caught and only printed, and the endpoint
still returns the success payload. -/
def ccResolved (env : ClusterEnv) (alias_list : List String) : List (String × String) :=
  if env.aliasListOk then buildAliasMap alias_list env.aliasLines else []

/-- The ledger after the try block of step 4 of create_cluster: MERGE
the cluster (SET created_at = now) and then MERGE membership edges for
every found ip.  Any exception anywhere in the block — the 503
HTTPException raised by get_db_session on a connectivity failure, a
failing MERGE query, or a failing linking query issued after the MERGE
already committed — is caught by the bare except clause and only
printed, so the ledger keeps whatever prefix of the two writes had been
applied. -/
def ccLedgerStep (env : ClusterEnv) (l : Ledger) (nm : String) (alias_list : List String)
    (now : Nat) : Ledger :=
  match env.dbOutcome with
  | .connFail => l
  | .mergeFail => l
  | .linkFail => mergeClusterSetCreated l nm now
  | .ok =>
      linkMembers (mergeClusterSetCreated l nm now) nm ((ccResolved env alias_list).map (fun p => p.2))

def create_cluster (env : ClusterEnv) (l : Ledger) (nm aliases : String) (now : Nat) :
    CCOut :=
  if (parseAliases aliases).length < 2 then
    ⟨.error 400, l, []⟩
  else if env.joinResult.returncode != 0 && !(alreadyClass env.joinResult.stderr) then
    ⟨.error 500, l,
      (parseAliases aliases).map ExtCall.resetCmd ++ [.joinCmd (parseAliases aliases)]⟩
  else
    ⟨.ok ⟨nm, parseAliases aliases, ccResolved env (parseAliases aliases)⟩,
      ccLedgerStep env l nm (parseAliases aliases) now,
      (parseAliases aliases).map ExtCall.resetCmd ++
        [.joinCmd (parseAliases aliases), .aliasListCmd, .ledgerWrite]⟩

/-- An empty system state: empty ledger, both target files absent. -/
def sysEmpty : SysState := ⟨⟨[], [], []⟩, .missing, .missing⟩

/-- A concrete environment where every external system works. -/
def ccEnvOk : ClusterEnv := ⟨⟨0, "", ""⟩, true, [], .ok⟩

/-- A concrete environment where the ledger connection fails before
anything is written. -/
def ccEnvDbDown : ClusterEnv := ⟨⟨0, "", ""⟩, true, [], .connFail⟩

/-- A concrete environment where the ledger block fails only at the
membership-linking query, after the cluster MERGE already committed. -/
def ccEnvLinkFail : ClusterEnv :=
  ⟨⟨0, "", ""⟩, true, [.parsed (some "a") "http://10.0.0.7:9000"], .linkFail⟩

/-- A concrete environment where the join command fails with an
"already configured" class of message. -/
def ccEnvJoinAlready : ClusterEnv := ⟨⟨1, "", "site replication already configured"⟩, true, [], .ok⟩

/-- A concrete ledger holding one cluster "c" created at time 100. -/
def ccLedger1 : Ledger := ⟨[], [⟨"c", 100⟩], []⟩

/-- A concrete target entry labelled with alias "x". -/
def exX : TargetEntry := ⟨["10.0.0.1:9001"], some "x", []⟩

/-- A concrete target entry labelled with alias "y". -/
def exY : TargetEntry := ⟨["10.0.0.2:9001"], some "y", []⟩

/-- A concrete store holding the entries for aliases "x" and "y". -/
def scXY : StoreContent := .entries [exX, exY]

/-! General list lemmas used by the upsert proofs. -/

theorem filter_map_update_zero {α : Type} (p : α → Bool) (new : α)
    (ns : List α) (h : ns.countP p = 0) :
    (ns.map (fun n => if p n then new else n)).filter p = [] := by
  rw [List.filter_eq_nil_iff]
  intro x hx
  obtain ⟨n, hn, hfn⟩ := List.mem_map.mp hx
  have hpn : ¬ p n = true := List.countP_eq_zero.mp h n hn
  rw [if_neg hpn] at hfn
  rw [← hfn]
  exact hpn

theorem filter_map_update_one {α : Type} (p : α → Bool) (new : α) (hp : p new = true)
    (ns : List α) (h1 : ns.countP p ≤ 1) (hany : ns.any p = true) :
    (ns.map (fun n => if p n then new else n)).filter p = [new] := by
  induction ns with
  | nil => simp at hany
  | cons n ns ih =>
    by_cases hpn : p n = true
    · have hzero : ns.countP p = 0 := by
        rw [List.countP_cons, if_pos hpn] at h1
        omega
      rw [List.map_cons, if_pos hpn, List.filter_cons_of_pos hp,
        filter_map_update_zero p new ns hzero]
    · have hpn' : p n = false := by simpa using hpn
      have hany' : ns.any p = true := by
        rw [List.any_cons, hpn'] at hany
        simpa using hany
      have h1' : ns.countP p ≤ 1 := by
        rw [List.countP_cons, if_neg hpn] at h1
        omega
      rw [List.map_cons, if_neg hpn, List.filter_cons_of_neg hpn]
      exact ih h1' hany'

theorem filter_map_update_other {α : Type} (p q : α → Bool) (new : α) (hq : q new = false)
    (hpq : ∀ a, p a = true → q a = false) (ns : List α) :
    (ns.map (fun n => if p n then new else n)).filter q = ns.filter q := by
  induction ns with
  | nil => rfl
  | cons n ns ih =>
    by_cases hpn : p n = true
    · rw [List.map_cons, if_pos hpn, List.filter_cons_of_neg (by simp [hq]),
        List.filter_cons_of_neg (by simp [hpq n hpn])]
      exact ih
    · rw [List.map_cons, if_neg hpn, List.filter_cons, List.filter_cons]
      cases hqn : q n <;> simp [ih]

theorem filter_not_filter {α : Type} (p : α → Bool) (xs : List α) :
    (xs.filter (fun x => !(p x))).filter p = [] := by
  rw [List.filter_eq_nil_iff]
  intro a ha
  have h2 := (List.mem_filter.mp ha).2
  simp only [Bool.not_eq_true'] at h2
  simp [h2]

/-! Lemmas about the node upsert (MERGE keyed by ip). -/

theorem upsertByIp_mem (ns : List NodeRec) (ip nm st : String) (now : Nat) :
    (⟨ip, nm, st, now⟩ : NodeRec) ∈ upsertByIp ns ip nm st now := by
  unfold upsertByIp
  by_cases hany : ns.any (fun n => n.ip == ip) = true
  · rw [if_pos hany]
    obtain ⟨n, hn, hpn⟩ := List.any_eq_true.mp hany
    exact List.mem_map.mpr ⟨n, hn, by rw [if_pos hpn]⟩
  · rw [if_neg hany]
    exact List.mem_append.mpr (Or.inr (List.mem_singleton.mpr rfl))

theorem upsertByIp_filter_self (ns : List NodeRec) (ip nm st : String) (now : Nat)
    (h : ns.countP (fun n => n.ip == ip) ≤ 1) :
    (upsertByIp ns ip nm st now).filter (fun n => n.ip == ip) = [⟨ip, nm, st, now⟩] := by
  unfold upsertByIp
  by_cases hany : ns.any (fun n => n.ip == ip) = true
  · rw [if_pos hany]
    exact filter_map_update_one _ _ (by simp) ns h hany
  · rw [if_neg hany, List.filter_append]
    have hnil : ns.filter (fun n => n.ip == ip) = [] := by
      rw [List.filter_eq_nil_iff]
      intro a ha
      have h3 : ∀ x ∈ ns, ¬ x.ip = ip := by simpa using hany
      simpa using h3 a ha
    rw [hnil]
    simp

theorem upsertByIp_filter_other (ns : List NodeRec) (ip nm st : String) (now : Nat)
    (ip2 : String) (h : ip2 ≠ ip) :
    (upsertByIp ns ip nm st now).filter (fun n => n.ip == ip2)
      = ns.filter (fun n => n.ip == ip2) := by
  unfold upsertByIp
  have hnew : ((⟨ip, nm, st, now⟩ : NodeRec).ip == ip2) = false := by
    simp
    exact Ne.symm h
  by_cases hany : ns.any (fun n => n.ip == ip) = true
  · rw [if_pos hany]
    refine filter_map_update_other (fun n => n.ip == ip) (fun n => n.ip == ip2)
      ⟨ip, nm, st, now⟩ hnew ?_ ns
    intro a hpa
    have ha : a.ip = ip := by simpa using hpa
    simp [ha]
    exact Ne.symm h
  · rw [if_neg hany, List.filter_append]
    simp [hnew]

theorem upsertByIp_length_of_any (ns : List NodeRec) (ip nm st : String) (now : Nat)
    (h : ns.any (fun n => n.ip == ip) = true) :
    (upsertByIp ns ip nm st now).length = ns.length := by
  unfold upsertByIp
  rw [if_pos h, List.length_map]

/-! Lemmas about the target-file read-modify-write. -/

theorem readTargets_update (sc : StoreContent) (a : String) (nt : Option TargetEntry) :
    readTargets (update_target_file sc a nt)
      = (readTargets sc).filter (fun e => !(e.aliasLabel == some a)) ++ nt.toList := by
  cases nt <;> simp [update_target_file, readTargets]

theorem update_target_filter_self (sc : StoreContent) (a : String) (t : TargetEntry)
    (ht : t.aliasLabel = some a) :
    (readTargets (update_target_file sc a (some t))).filter (fun e => e.aliasLabel == some a)
      = [t] := by
  rw [readTargets_update, List.filter_append, filter_not_filter]
  simp [Option.toList, ht]

/-! Lemmas about the cluster upsert and the member linking. -/

theorem clusterMap_filter_zero (nm : String) (now : Nat) (cs : List ClusterRec)
    (h : cs.countP (fun c => c.name == nm) = 0) :
    (cs.map (fun c => if c.name == nm then ⟨c.name, now⟩ else c)).filter
        (fun c => c.name == nm) = [] := by
  rw [List.filter_eq_nil_iff]
  intro x hx
  obtain ⟨c, hc, hfc⟩ := List.mem_map.mp hx
  have hpc : ¬ (c.name == nm) = true := List.countP_eq_zero.mp h c hc
  rw [if_neg hpc] at hfc
  rw [← hfc]
  exact hpc

theorem clusterMap_filter_one (nm : String) (now : Nat) (cs : List ClusterRec)
    (h1 : cs.countP (fun c => c.name == nm) ≤ 1)
    (hany : cs.any (fun c => c.name == nm) = true) :
    (cs.map (fun c => if c.name == nm then ⟨c.name, now⟩ else c)).filter
        (fun c => c.name == nm) = [⟨nm, now⟩] := by
  induction cs with
  | nil => simp at hany
  | cons c cs ih =>
    by_cases hpc : (c.name == nm) = true
    · have hzero : cs.countP (fun c => c.name == nm) = 0 := by
        rw [List.countP_cons, if_pos hpc] at h1
        omega
      have hcn : c.name = nm := by simpa using hpc
      rw [List.map_cons, if_pos hpc, hcn, List.filter_cons, if_pos (by simp),
        clusterMap_filter_zero nm now cs hzero]
    · have hpc' : (c.name == nm) = false := by simpa using hpc
      have hany' : cs.any (fun c => c.name == nm) = true := by
        rw [List.any_cons, hpc'] at hany
        simpa using hany
      have h1' : cs.countP (fun c => c.name == nm) ≤ 1 := by
        rw [List.countP_cons, if_neg hpc] at h1
        omega
      rw [List.map_cons, if_neg hpc, List.filter_cons, if_neg hpc]
      exact ih h1' hany'

theorem upsertClusterList_filter_self (cs : List ClusterRec) (nm : String) (now : Nat)
    (h : cs.countP (fun c => c.name == nm) ≤ 1)
    (hany : cs.any (fun c => c.name == nm) = true) :
    (upsertClusterList cs nm now).filter (fun c => c.name == nm) = [⟨nm, now⟩] := by
  unfold upsertClusterList
  rw [if_pos hany]
  exact clusterMap_filter_one nm now cs h hany

theorem upsertClusterList_length_of_any (cs : List ClusterRec) (nm : String) (now : Nat)
    (hany : cs.any (fun c => c.name == nm) = true) :
    (upsertClusterList cs nm now).length = cs.length := by
  unfold upsertClusterList
  rw [if_pos hany, List.length_map]

theorem linkMembers_clusters (l : Ledger) (nm : String) (ips : List String) :
    (linkMembers l nm ips).clusters = l.clusters := by
  unfold linkMembers
  split <;> rfl

/-! Reduction lemmas for the endpoints. -/

theorem register_node_run (st : SysState) (nm ip : String) (node_port : Nat)
    (is_a is_b : Bool) (now : Nat) :
    register_node st nm ip node_port is_a is_b true now =
      (.ok ⟨nm, is_a, is_b⟩,
        ⟨{ st.ledger with
            nodes := upsertByIp st.ledger.nodes ip nm (computeStatus is_a is_b) now },
          update_target_file st.minioTargets nm (some ⟨[addr ip 9001, addr ip 9003], some nm, []⟩),
          update_target_file st.nodeTargets nm (some ⟨[addr ip node_port], some nm, []⟩)⟩) := rfl

theorem create_cluster_badargs (env : ClusterEnv) (l : Ledger) (nm aliases : String) (now : Nat)
    (h : (parseAliases aliases).length < 2) :
    create_cluster env l nm aliases now = ⟨.error 400, l, []⟩ := by
  unfold create_cluster
  rw [if_pos h]

theorem create_cluster_abort (env : ClusterEnv) (l : Ledger) (nm aliases : String) (now : Nat)
    (h2 : ¬ (parseAliases aliases).length < 2)
    (hguard : (env.joinResult.returncode != 0 && !(alreadyClass env.joinResult.stderr)) = true) :
    create_cluster env l nm aliases now =
      ⟨.error 500, l,
        (parseAliases aliases).map ExtCall.resetCmd ++ [.joinCmd (parseAliases aliases)]⟩ := by
  unfold create_cluster
  rw [if_neg h2, if_pos hguard]

theorem create_cluster_run (env : ClusterEnv) (l : Ledger) (nm aliases : String) (now : Nat)
    (h2 : ¬ (parseAliases aliases).length < 2)
    (hguard : (env.joinResult.returncode != 0 && !(alreadyClass env.joinResult.stderr)) = false) :
    create_cluster env l nm aliases now =
      ⟨.ok ⟨nm, parseAliases aliases, ccResolved env (parseAliases aliases)⟩,
        ccLedgerStep env l nm (parseAliases aliases) now,
        (parseAliases aliases).map ExtCall.resetCmd ++
          [.joinCmd (parseAliases aliases), .aliasListCmd, .ledgerWrite]⟩ := by
  unfold create_cluster
  rw [if_neg h2, if_neg (by simp [hguard])]

/-! Claim theorems. -/

/-- C1 counterexample: the claim says re-forming a cluster under an
existing name leaves created_at unchanged; in the code the MERGE is
followed by an unconditional SET c.created_at = timestamp(), so the
attribute is overwritten — re-forming cluster "c" (created at 100) at
time 200 leaves its created_at at 200, not 100. -/
theorem C1_counterexample :
    ccLedger1.clusters.any (fun c => c.name == "c") = true
  ∧ ccLedger1.clusters = [⟨"c", 100⟩]
  ∧ (create_cluster ccEnvOk ccLedger1 "c" "a, b" 200).ledger.clusters = [⟨"c", 200⟩]
  ∧ (200 : Nat) ≠ 100 := by
  refine ⟨by decide, rfl, by decide, by decide⟩

/-- C1 amended: a FormCluster request whose name already exists in the
ledger (with valid arguments, a passing join and a fully successful
ledger block) overwrites the cluster's created_at with the current
timestamp rather than leaving it unchanged: afterwards the cluster
records with that name are exactly one record stamped created_at = now,
and the cluster list has not grown. -/
theorem C1_amended_thm (env : ClusterEnv) (l : Ledger) (nm aliases : String) (now : Nat)
    (h2 : 2 ≤ (parseAliases aliases).length)
    (hj : env.joinResult.returncode = 0 ∨ alreadyClass env.joinResult.stderr = true)
    (hdb : env.dbOutcome = DbOutcome.ok)
    (hone : l.clusters.countP (fun c => c.name == nm) = 1) :
    (create_cluster env l nm aliases now).ledger.clusters.filter (fun c => c.name == nm)
      = [⟨nm, now⟩]
  ∧ (create_cluster env l nm aliases now).ledger.clusters.length = l.clusters.length := by
  have hguard : (env.joinResult.returncode != 0 && !(alreadyClass env.joinResult.stderr)) = false := by
    rcases hj with hj | hj <;> simp [hj]
  have hany : l.clusters.any (fun c => c.name == nm) = true :=
    List.any_eq_true.mpr (List.countP_pos_iff.mp (by omega))
  rw [create_cluster_run env l nm aliases now (by omega) hguard]
  dsimp only [ccLedgerStep]
  rw [hdb, linkMembers_clusters]
  dsimp only [mergeClusterSetCreated]
  exact ⟨upsertClusterList_filter_self _ _ _ (by omega) hany,
    upsertClusterList_length_of_any _ _ _ hany⟩

/-- C1 witness for the amended theorem, at a concrete re-formation of
existing cluster "c". -/
theorem C1_amended_witness :
    2 ≤ (parseAliases "a, b").length
  ∧ ccLedger1.clusters.countP (fun c => c.name == "c") = 1
  ∧ (create_cluster ccEnvOk ccLedger1 "c" "a, b" 200).ledger.clusters.filter
      (fun c => c.name == "c") = [⟨"c", 200⟩]
  ∧ (create_cluster ccEnvOk ccLedger1 "c" "a, b" 200).ledger.clusters.length
      = ccLedger1.clusters.length :=
  ⟨by decide, by decide,
    (C1_amended_thm ccEnvOk ccLedger1 "c" "a, b" 200 (by decide) (Or.inl rfl) rfl (by decide)).1,
    (C1_amended_thm ccEnvOk ccLedger1 "c" "a, b" 200 (by decide) (Or.inl rfl) rfl (by decide)).2⟩

/-- C2 counterexample: the claim says a failure of the ledger-write
step during FormCluster aborts the operation and surfaces to the
caller; in the code the whole Neo4j block sits in a bare try/except
that catches even the 503 HTTPException raised by get_db_session and
only prints it, so a run with the ledger down still returns success —
and a run failing only at the membership-linking query also returns
success while the ledger has already been changed by the committed
cluster MERGE. -/
theorem C2_counterexample :
    ccEnvDbDown.dbOutcome = DbOutcome.connFail
  ∧ (create_cluster ccEnvDbDown ccLedger1 "c" "a, b" 5).result.isOk = true
  ∧ ccEnvLinkFail.dbOutcome = DbOutcome.linkFail
  ∧ (create_cluster ccEnvLinkFail ccLedger1 "c" "a, b" 5).result.isOk = true
  ∧ (create_cluster ccEnvLinkFail ccLedger1 "c" "a, b" 5).ledger ≠ ccLedger1 :=
  ⟨rfl, by decide, rfl, by decide, by decide⟩

/-- C2 amended: for every FormCluster request that passes argument
validation and whose join step passes, any failure of the ledger-write
step — a connectivity failure, a failing cluster MERGE, or a failing
membership-linking query after the MERGE committed — is caught and
only logged: the endpoint still returns a success response. -/
theorem C2_amended_thm (env : ClusterEnv) (l : Ledger) (nm aliases : String) (now : Nat)
    (h2 : 2 ≤ (parseAliases aliases).length)
    (hj : env.joinResult.returncode = 0 ∨ alreadyClass env.joinResult.stderr = true)
    (_hdb : env.dbOutcome ≠ DbOutcome.ok) :
    (create_cluster env l nm aliases now).result.isOk = true := by
  have hguard : (env.joinResult.returncode != 0 && !(alreadyClass env.joinResult.stderr)) = false := by
    rcases hj with hj | hj <;> simp [hj]
  rw [create_cluster_run env l nm aliases now (by omega) hguard]
  rfl

/-- C2 witness for the amended theorem, at a concrete run with the
ledger connection down. -/
theorem C2_amended_witness :
    2 ≤ (parseAliases "a, b").length
  ∧ ccEnvDbDown.dbOutcome ≠ DbOutcome.ok
  ∧ (create_cluster ccEnvDbDown ccLedger1 "c" "a, b" 5).result.isOk = true :=
  ⟨by decide, by decide,
    C2_amended_thm ccEnvDbDown ccLedger1 "c" "a, b" 5 (by decide) (Or.inl rfl) (by decide)⟩

/-- C3: registering the same ip twice, under any names, leaves exactly
one node record for that address: the second registration rewrites the
record's name, status and last_seen in place and does not grow the node
list. -/
theorem C3_thm (st : SysState) (n1 n2 ip : String) (p1 p2 : Nat)
    (a1 b1 a2 b2 : Bool) (t1 t2 : Nat)
    (h : st.ledger.nodes.countP (fun n => n.ip == ip) ≤ 1) :
    (register_node (register_node st n1 ip p1 a1 b1 true t1).2 n2 ip p2 a2 b2 true t2).2.ledger.nodes.filter
        (fun n => n.ip == ip) = [⟨ip, n2, computeStatus a2 b2, t2⟩]
  ∧ (register_node (register_node st n1 ip p1 a1 b1 true t1).2 n2 ip p2 a2 b2 true t2).2.ledger.nodes.length
      = (register_node st n1 ip p1 a1 b1 true t1).2.ledger.nodes.length := by
  simp only [register_node_run]
  have hf1 := upsertByIp_filter_self st.ledger.nodes ip n1 (computeStatus a1 b1) t1 h
  have hc1 : (upsertByIp st.ledger.nodes ip n1 (computeStatus a1 b1) t1).countP
      (fun n => n.ip == ip) = 1 := by
    rw [List.countP_eq_length_filter, hf1]
    rfl
  have hany1 : (upsertByIp st.ledger.nodes ip n1 (computeStatus a1 b1) t1).any
      (fun n => n.ip == ip) = true :=
    List.any_eq_true.mpr ⟨_, upsertByIp_mem _ _ _ _ _, by simp⟩
  exact ⟨upsertByIp_filter_self _ _ _ _ _ (by omega),
    upsertByIp_length_of_any _ _ _ _ _ hany1⟩

/-- C3 witness: registering 10.0.0.1 as NodeA then as NodeB leaves one
record carrying NodeB's data. -/
theorem C3_witness :
    sysEmpty.ledger.nodes.countP (fun n => n.ip == "10.0.0.1") ≤ 1
  ∧ ((register_node (register_node sysEmpty "NodeA" "10.0.0.1" 9100 true true true 1).2
        "NodeB" "10.0.0.1" 9100 true false true 2).2.ledger.nodes.filter
          (fun n => n.ip == "10.0.0.1") = [⟨"10.0.0.1", "NodeB", computeStatus true false, 2⟩]
      ∧ (register_node (register_node sysEmpty "NodeA" "10.0.0.1" 9100 true true true 1).2
            "NodeB" "10.0.0.1" 9100 true false true 2).2.ledger.nodes.length
          = (register_node sysEmpty "NodeA" "10.0.0.1" 9100 true true true 1).2.ledger.nodes.length) :=
  ⟨by decide,
    C3_thm sysEmpty "NodeA" "NodeB" "10.0.0.1" 9100 9100 true true true false 1 2 (by decide)⟩

/-- C4: a registration stores status "active" exactly when both probes
succeed and "degraded" otherwise; probe failures never abort the
registration, and "offline" is never stored. -/
theorem C4_thm (st : SysState) (nm ip : String) (port : Nat) (a b : Bool) (now : Nat) :
    (register_node st nm ip port a b true now).1.isOk = true
  ∧ (⟨ip, nm, computeStatus a b, now⟩ : NodeRec)
      ∈ (register_node st nm ip port a b true now).2.ledger.nodes
  ∧ (computeStatus a b = "active" ↔ a = true ∧ b = true)
  ∧ (computeStatus a b = "active" ∨ computeStatus a b = "degraded")
  ∧ computeStatus a b ≠ "offline" := by
  refine ⟨rfl, ?_, ?_, ?_, ?_⟩
  · simp only [register_node_run]
    exact upsertByIp_mem _ _ _ _ _
  · cases a <;> cases b <;> simp [computeStatus]
  · cases a <;> cases b <;> simp [computeStatus]
  · cases a <;> cases b <;> simp [computeStatus]

/-- C4 witness: a node with both probes failing is still registered,
with status degraded. -/
theorem C4_witness :
    (⟨"10.0.0.9", "N", computeStatus false false, 3⟩ : NodeRec)
      ∈ (register_node sysEmpty "N" "10.0.0.9" 9100 false false true 3).2.ledger.nodes :=
  (C4_thm sysEmpty "N" "10.0.0.9" 9100 false false 3).2.1

/-- C5: a FormCluster request with fewer than two non-empty trimmed
aliases returns 400 with the ledger unchanged and an empty trace of
external calls: no reset, no join, no alias listing, no ledger write. -/
theorem C5_thm (env : ClusterEnv) (l : Ledger) (nm aliases : String) (now : Nat)
    (h : (parseAliases aliases).length < 2) :
    create_cluster env l nm aliases now = ⟨.error 400, l, []⟩ := by
  unfold create_cluster
  rw [if_pos h]

/-- C5 witness: a single-alias request (with stray whitespace and an
empty piece) is rejected without any external call. -/
theorem C5_witness :
    (parseAliases " a ,  ").length < 2
  ∧ create_cluster ccEnvOk ccLedger1 "c" " a ,  " 7 = ⟨.error 400, ccLedger1, []⟩ :=
  ⟨by decide, C5_thm ccEnvOk ccLedger1 "c" " a ,  " 7 (by decide)⟩

/-- C6: with valid arguments, a join command that fails with an
"already" class of message is treated as success — the run is identical
to one whose join succeeded — while a failure with any other message
aborts with 500 after the resets and the join, with the ledger
untouched. -/
theorem C6_thm (env : ClusterEnv) (l : Ledger) (nm aliases : String) (now : Nat)
    (h2 : 2 ≤ (parseAliases aliases).length)
    (hrc : env.joinResult.returncode ≠ 0) :
    (alreadyClass env.joinResult.stderr = false →
        create_cluster env l nm aliases now =
          ⟨.error 500, l,
            (parseAliases aliases).map ExtCall.resetCmd ++ [.joinCmd (parseAliases aliases)]⟩)
  ∧ (alreadyClass env.joinResult.stderr = true →
        (create_cluster env l nm aliases now).result.isOk = true
      ∧ create_cluster env l nm aliases now =
          create_cluster { env with joinResult := ⟨0, "", ""⟩ } l nm aliases now) := by
  constructor
  · intro hal
    refine create_cluster_abort env l nm aliases now (by omega) ?_
    rw [hal]
    simp [bne_iff_ne]
    exact hrc
  · intro hal
    have hg1 : (env.joinResult.returncode != 0 && !(alreadyClass env.joinResult.stderr)) = false := by
      simp [hal]
    have hg2 : ((({ env with joinResult := ⟨0, "", ""⟩ } : ClusterEnv).joinResult.returncode != 0)
        && !(alreadyClass ({ env with joinResult := ⟨0, "", ""⟩ } : ClusterEnv).joinResult.stderr)) = false := by
      simp
    rw [create_cluster_run env l nm aliases now (by omega) hg1,
      create_cluster_run _ l nm aliases now (by omega) hg2]
    exact ⟨rfl, rfl⟩

/-- C6 witness: a join failing with "site replication already
configured" still yields a success response. -/
theorem C6_witness :
    (create_cluster ccEnvJoinAlready ccLedger1 "c" "a, b" 9).result.isOk = true :=
  ((C6_thm ccEnvJoinAlready ccLedger1 "c" "a, b" 9 (by decide) (by decide)).2 (by decide)).1

/-- C7: a target-file upsert or removal for one alias preserves every
entry with a different (or missing) alias label verbatim and in order;
everything in the written-back collection comes from the old collection
or is the new entry; and an entry labelled with the given alias
survives only if it is the new entry itself. -/
theorem C7_thm (sc : StoreContent) (a : String) (nt : Option TargetEntry) :
    ((readTargets sc).filter (fun e => !(e.aliasLabel == some a))).Sublist
        (readTargets (update_target_file sc a nt))
  ∧ (∀ e ∈ readTargets (update_target_file sc a nt), e ∈ readTargets sc ∨ nt = some e)
  ∧ (∀ e ∈ readTargets sc, e.aliasLabel ≠ some a →
        e ∈ readTargets (update_target_file sc a nt))
  ∧ (∀ e ∈ readTargets sc, e.aliasLabel = some a →
        e ∉ readTargets (update_target_file sc a nt) ∨ nt = some e) := by
  rw [readTargets_update]
  refine ⟨List.sublist_append_left _ _, ?_, ?_, ?_⟩
  · intro e he
    rcases List.mem_append.mp he with hm | hm
    · exact Or.inl (List.mem_filter.mp hm).1
    · exact Or.inr (Option.mem_def.mp (Option.mem_toList.mp hm))
  · intro e he hne
    exact List.mem_append.mpr (Or.inl (List.mem_filter.mpr ⟨he, by simp [hne]⟩))
  · intro e he hla
    by_cases hmem : e ∈ (readTargets sc).filter (fun x => !(x.aliasLabel == some a)) ++ nt.toList
    · rcases List.mem_append.mp hmem with hm | hm
      · have hf := (List.mem_filter.mp hm).2
        rw [hla] at hf
        simp at hf
      · exact Or.inr (Option.mem_def.mp (Option.mem_toList.mp hm))
    · exact Or.inl hmem

/-- C7 witness: removing alias x from a store holding x and y keeps
y's entry. -/
theorem C7_witness :
    exY ∈ readTargets scXY ∨ (none : Option TargetEntry) = some exY :=
  (C7_thm scXY "x" none).2.1 exY (by decide)

/-- C8: deregistering a name absent from the ledger returns 404 and
leaves the whole state — ledger and both target collections —
untouched. -/
theorem C8_thm (st : SysState) (nm : String)
    (h : st.ledger.nodes.countP (fun n => n.name == nm) = 0) :
    delete_node st nm true = (.error 404, st) := by
  unfold delete_node
  rw [if_pos rfl, if_pos h]

/-- C8 witness: deleting the unknown node ghost from the empty state
gives 404 and the unchanged state. -/
theorem C8_witness :
    sysEmpty.ledger.nodes.countP (fun n => n.name == "ghost") = 0
  ∧ delete_node sysEmpty "ghost" true = (.error 404, sysEmpty) :=
  ⟨by decide, C8_thm sysEmpty "ghost" (by decide)⟩

/-- C9: a missing, empty, malformed or non-list store behaves exactly
like an empty collection under upsert and removal (the read step yields
[] for each of them), and a registration over such stores still returns
success — a parse failure is never surfaced as an API error. -/
theorem C9_thm (a : String) (nt : Option TargetEntry) :
    update_target_file .missing a nt = update_target_file (.entries []) a nt
  ∧ update_target_file .empty a nt = update_target_file (.entries []) a nt
  ∧ update_target_file .malformed a nt = update_target_file (.entries []) a nt
  ∧ update_target_file .nonList a nt = update_target_file (.entries []) a nt
  ∧ readTargets .missing = [] ∧ readTargets .empty = []
  ∧ readTargets .malformed = [] ∧ readTargets .nonList = []
  ∧ ∀ (st : SysState) (nm ip : String) (port : Nat) (ha hb : Bool) (now : Nat),
      (register_node { st with minioTargets := .malformed, nodeTargets := .nonList }
          nm ip port ha hb true now).1.isOk = true := by
  refine ⟨?_, ?_, ?_, ?_, rfl, rfl, rfl, rfl, fun st nm ip port ha hb now => rfl⟩ <;>
    cases nt <;> rfl

/-- C10: registering the same name at two different addresses leaves
two ledger records, one per address, both carrying that name, while
each target collection keeps exactly one entry labelled with that name
— the second registration's targets. -/
theorem C10_thm (st : SysState) (nm ip1 ip2 : String) (p1 p2 : Nat)
    (a1 b1 a2 b2 : Bool) (t1 t2 : Nat)
    (hip : ip1 ≠ ip2)
    (h1 : st.ledger.nodes.filter (fun n => n.ip == ip1) = [])
    (h2 : st.ledger.nodes.filter (fun n => n.ip == ip2) = []) :
    (register_node (register_node st nm ip1 p1 a1 b1 true t1).2 nm ip2 p2 a2 b2 true t2).2.ledger.nodes.filter
        (fun n => n.ip == ip1) = [⟨ip1, nm, computeStatus a1 b1, t1⟩]
  ∧ (register_node (register_node st nm ip1 p1 a1 b1 true t1).2 nm ip2 p2 a2 b2 true t2).2.ledger.nodes.filter
        (fun n => n.ip == ip2) = [⟨ip2, nm, computeStatus a2 b2, t2⟩]
  ∧ (readTargets (register_node (register_node st nm ip1 p1 a1 b1 true t1).2 nm ip2 p2 a2 b2 true t2).2.minioTargets).filter
        (fun e => e.aliasLabel == some nm) = [⟨[addr ip2 9001, addr ip2 9003], some nm, []⟩]
  ∧ (readTargets (register_node (register_node st nm ip1 p1 a1 b1 true t1).2 nm ip2 p2 a2 b2 true t2).2.nodeTargets).filter
        (fun e => e.aliasLabel == some nm) = [⟨[addr ip2 p2], some nm, []⟩] := by
  simp only [register_node_run]
  refine ⟨?_, ?_, ?_, ?_⟩
  · rw [upsertByIp_filter_other _ _ _ _ _ ip1 hip]
    refine upsertByIp_filter_self _ _ _ _ _ ?_
    rw [List.countP_eq_length_filter, h1]
    simp
  · refine upsertByIp_filter_self _ _ _ _ _ ?_
    rw [List.countP_eq_length_filter, upsertByIp_filter_other _ _ _ _ _ ip2 (Ne.symm hip), h2]
    simp
  · exact update_target_filter_self _ _ _ rfl
  · exact update_target_filter_self _ _ _ rfl

/-- C10 witness: re-registering A at a second address keeps only the
second address in the minio target collection. -/
theorem C10_witness :
    (readTargets (register_node (register_node sysEmpty "A" "10.0.0.1" 9100 true true true 1).2
        "A" "10.0.0.2" 9100 false false true 2).2.minioTargets).filter
        (fun e => e.aliasLabel == some "A")
      = [⟨[addr "10.0.0.2" 9001, addr "10.0.0.2" 9003], some "A", []⟩] :=
  (C10_thm sysEmpty "A" "10.0.0.1" "10.0.0.2" 9100 9100 true true false false 1 2
    (by decide) (by decide) (by decide)).2.2.1

end BloomNet
